import Mathlib

/-!
Verification of the anomaly-report generator (`src/anomaly_report.py`).

The script queries an Elasticsearch ML results index for anomaly records,
falls back to a shared index on 404 and to bucket results when no records
are found, and renders a chart plus a PDF report.  We embed the data flow
shallowly: JSON source documents become the structure `Doc`, HTTP responses
become `Response`, the search endpoint becomes an oracle function
`String → Payload → Response`, and the Python float scores become `ℚ`.
-/

/-- Configuration constant `JOB_ID` from the script. -/
def JOB_ID : String := "analyze_test_results"

/-- Configuration constant `DAYS_BACK` from the script (lookback window in days). -/
def DAYS_BACK : Int := 50

/-- Milliseconds in a day; `timedelta(days=n)` shifts the epoch-millisecond
timestamp by `n * 86400000`. -/
def MS_PER_DAY : Int := 86400000

/-- Source document of a search hit (`hit['_source']`).  Fields the script
reads are optional: Python `dict.get` / `in` checks model absence as `none`.
Timestamps are epoch milliseconds (ISO-string timestamps are abstracted to
their epoch value). -/
structure Doc where
  job_id : String
  result_type : String
  timestamp : Option Int
  record_score : Option ℚ
  partition_field_value : Option String
  actual : Option (List ℚ)
  typical : Option (List ℚ)
  deriving Repr, DecidableEq

/-- The score the script reads from a record: `r.get('record_score', 0)`. -/
def scoreOf (r : Doc) : ℚ := r.record_score.getD 0

/-- Critical tier test from `create_pdf_report`: `r.get('record_score', 0) > 75`. -/
def criticalB (s : ℚ) : Bool := 75 < s

/-- Major tier test from `create_pdf_report`: `50 < score <= 75`. -/
def majorB (s : ℚ) : Bool := 50 < s && s ≤ 75

/-- Minor tier test from `create_pdf_report`: `25 < score <= 50`. -/
def minorB (s : ℚ) : Bool := 25 < s && s ≤ 50

/-- Negligible tier per the spec: score `<= 25` (not counted by the script). -/
def negligibleB (s : ℚ) : Bool := s ≤ 25

/-- Tier count `critical` in `create_pdf_report`:
`len([r for r in records if r.get('record_score', 0) > 75])`. -/
def critical (records : List Doc) : Nat :=
  (records.filter (fun r => criticalB (scoreOf r))).length

/-- Tier count `major` in `create_pdf_report`:
`len([r for r in records if 50 < r.get('record_score', 0) <= 75])`. -/
def major (records : List Doc) : Nat :=
  (records.filter (fun r => majorB (scoreOf r))).length

/-- Tier count `minor` in `create_pdf_report`:
`len([r for r in records if 25 < r.get('record_score', 0) <= 50])`. -/
def minor (records : List Doc) : Nat :=
  (records.filter (fun r => minorB (scoreOf r))).length

/-- Count of records in the spec's Negligible tier (score `<= 25`). -/
def negligible (records : List Doc) : Nat :=
  (records.filter (fun r => negligibleB (scoreOf r))).length

lemma tier_indicators_sum (s : ℚ) :
    (criticalB s).toNat + (majorB s).toNat + (minorB s).toNat + (negligibleB s).toNat = 1 := by
  unfold criticalB majorB minorB negligibleB
  rcases le_or_lt s 25 with h1 | h1
  · have h2 : ¬ 25 < s := not_lt.mpr h1
    have h3 : ¬ 50 < s := by push_neg; linarith
    have h4 : ¬ 75 < s := by push_neg; linarith
    simp [h1, h2, h3, h4]
  · rcases le_or_lt s 50 with h2 | h2
    · have h3 : ¬ s ≤ 25 := not_le.mpr h1
      have h4 : ¬ 50 < s := not_lt.mpr h2
      have h5 : ¬ 75 < s := by push_neg; linarith
      simp [h1, h2, h3, h4, h5]
    · rcases le_or_lt s 75 with h3 | h3
      · have h4 : ¬ s ≤ 25 := by push_neg; linarith
        have h5 : ¬ s ≤ 50 := not_le.mpr h2
        have h6 : ¬ 75 < s := not_lt.mpr h3
        simp [h2, h3, h4, h5, h6]
      · have h4 : ¬ s ≤ 25 := by push_neg; linarith
        have h5 : ¬ s ≤ 50 := by push_neg; linarith
        have h6 : ¬ s ≤ 75 := not_le.mpr h3
        simp [h3, h4, h5, h6]

/-- C1: severity classification is a total, non-overlapping partition of scores:
for every score `s`, exactly one of Critical (`s > 75`), Major (`50 < s ≤ 75`),
Minor (`25 < s ≤ 50`), Negligible (`s ≤ 25`) holds, and accordingly the tier
counts computed in `create_pdf_report` (plus the Negligible count) always sum
to the number of records. -/
theorem severity_partition :
    (∀ s : ℚ, (criticalB s).toNat + (majorB s).toNat + (minorB s).toNat
        + (negligibleB s).toNat = 1)
    ∧ (∀ records : List Doc,
        critical records + major records + minor records + negligible records
          = records.length) := by
  refine ⟨tier_indicators_sum, ?_⟩
  intro records
  unfold critical major minor negligible
  induction records with
  | nil => simp
  | cons r rest ih =>
    have h := tier_indicators_sum (scoreOf r)
    by_cases hc : criticalB (scoreOf r) <;>
      by_cases hm : majorB (scoreOf r) <;>
        by_cases hn : minorB (scoreOf r) <;>
          by_cases hg : negligibleB (scoreOf r) <;>
            simp [hc, hm, hn, hg, List.filter_cons] at h ⊢ <;> omega

/-- A record carrying only a score, as used in the spec's classification
scenario; other fields are absent. -/
def scoreOnlyRecord (s : ℚ) : Doc :=
  { job_id := JOB_ID, result_type := "record", timestamp := none,
    record_score := some s, partition_field_value := none,
    actual := none, typical := none }

/-- C4: for records with scores `[80, 60, 30, 10]`, `create_pdf_report`'s
classification counts Critical = 1, Major = 1, Minor = 1, and the score-10
record falls in none of these three tiers. -/
theorem scenario_counts_80_60_30_10 :
    critical [scoreOnlyRecord 80, scoreOnlyRecord 60, scoreOnlyRecord 30,
        scoreOnlyRecord 10] = 1
    ∧ major [scoreOnlyRecord 80, scoreOnlyRecord 60, scoreOnlyRecord 30,
        scoreOnlyRecord 10] = 1
    ∧ minor [scoreOnlyRecord 80, scoreOnlyRecord 60, scoreOnlyRecord 30,
        scoreOnlyRecord 10] = 1
    ∧ criticalB (scoreOf (scoreOnlyRecord 10)) = false
    ∧ majorB (scoreOf (scoreOnlyRecord 10)) = false
    ∧ minorB (scoreOf (scoreOnlyRecord 10)) = false := by
  decide

/-- A search hit: the script reads `hit['_source']`. -/
structure Hit where
  source : Doc
  deriving Repr, DecidableEq

/-- Parsed JSON body of a search response.  `hits` is `data['hits']['hits']`;
a body without a `'hits'` key is modelled as `none` at the `Response` level. -/
structure SearchBody where
  hits : List Hit
  deriving Repr, DecidableEq

/-- HTTP response as the script observes it: a status code and, for JSON
bodies containing `'hits'`, the parsed hit list. -/
structure Response where
  status : Nat
  body : Option SearchBody
  deriving Repr, DecidableEq

/-- Sort clause of the search payload: `record_score` descending for the
record query, `timestamp` ascending for the bucket query. -/
inductive SortSpec where
  | scoreDesc
  | timestampAsc
  deriving Repr, DecidableEq

/-- Search payload built by the script: a bool filter of `term` clauses on
`job_id` and `result_type`, optional `range` clauses on `timestamp` and
`record_score`, a size cap, and a sort clause. -/
structure Payload where
  size : Nat
  job_id : String
  result_type : String
  tsRange : Option (Int × Int)
  scoreGte : Option ℚ
  sort : SortSpec
  deriving Repr, DecidableEq

/-- Payload of `fetch_anomaly_data` (`threshold` generalises the literal
`0` in the script's `record_score` range clause): terms on `job_id` and
`result_type == "record"`, timestamp range `[now - DAYS_BACK days, now]` in
epoch ms, `record_score >= threshold`, size 1000, sorted by score descending. -/
def recordPayload (nowMs : Int) (threshold : ℚ) : Payload :=
  { size := 1000, job_id := JOB_ID, result_type := "record",
    tsRange := some (nowMs - DAYS_BACK * MS_PER_DAY, nowMs),
    scoreGte := some threshold, sort := SortSpec.scoreDesc }

/-- Payload of `fetch_bucket_data`: terms on `job_id` and
`result_type == "bucket"` only, no range clauses, sorted by timestamp
ascending. -/
def bucketPayload : Payload :=
  { size := 1000, job_id := JOB_ID, result_type := "bucket",
    tsRange := none, scoreGte := none, sort := SortSpec.timestampAsc }

/-- Whether a document satisfies the payload's bool filter; a `range` clause
on an absent field matches nothing. -/
def matchesFilter (p : Payload) (d : Doc) : Bool :=
  d.job_id == p.job_id && d.result_type == p.result_type &&
  (match p.tsRange with
   | none => true
   | some (lo, hi) =>
     match d.timestamp with
     | none => false
     | some ts => decide (lo ≤ ts) && decide (ts ≤ hi)) &&
  (match p.scoreGte with
   | none => true
   | some t =>
     match d.record_score with
     | none => false
     | some s => decide (t ≤ s))

/-- Comparator realising the payload's sort clause. -/
def sortLe (sp : SortSpec) (a b : Doc) : Bool :=
  match sp with
  | SortSpec.scoreDesc => scoreOf b ≤ scoreOf a
  | SortSpec.timestampAsc => a.timestamp.getD 0 ≤ b.timestamp.getD 0

/-- Search semantics of the external engine (an external collaborator, per
the spec's query description): documents of the index matching the bool
filter, sorted per the sort clause (a stable sort), capped at `size`. -/
def esSearch (contents : List Doc) (p : Payload) : List Hit :=
  ((List.insertionSort (fun a b => sortLe p.sort a b = true)
      (contents.filter (matchesFilter p))).take p.size).map
    (fun d => ⟨d⟩)

/-- Primary index name `.ml-anomalies-<job_id>` targeted by the first POST. -/
def primaryIndex : String := ".ml-anomalies-" ++ JOB_ID

/-- Fallback index name `.ml-anomalies-shared` used on a 404. -/
def sharedIndex : String := ".ml-anomalies-shared"

/-- A search endpoint behaving per the engine's query semantics: every index
answers 200 with the hits `esSearch` selects from its contents. -/
def honestPost (contents : String → List Doc) : String → Payload → Response :=
  fun idx p => { status := 200, body := some ⟨esSearch (contents idx) p⟩ }

/-- Tail of `fetch_anomaly_data` after `raise_for_status`: return `None`
when `'hits'` is absent or empty, else project `hit['_source']` and keep the
significant records (`r.get('record_score', 0) > 0`). -/
def extractRecords (body : Option SearchBody) : Option (List Doc) :=
  match body with
  | none => none
  | some data =>
    if data.hits.isEmpty then none
    else
      let records := data.hits.map Hit.source
      some (records.filter (fun r => decide ((0 : ℚ) < scoreOf r)))

/-- The script's `fetch_anomaly_data`, over a search endpoint `post`: POST the
record payload to the job index, on 404 retry once against the shared index
with the same payload, return `None` on an HTTP error status
(`raise_for_status`), otherwise extract the significant records. -/
def fetch_anomaly_data (post : String → Payload → Response) (nowMs : Int)
    (threshold : ℚ) : Option (List Doc) :=
  let payload := recordPayload nowMs threshold
  let first := post primaryIndex payload
  let response := if first.status == 404 then post sharedIndex payload else first
  if 400 ≤ response.status then none
  else extractRecords response.body

/-- The sequence of search requests `fetch_anomaly_data` issues, mirroring
its control flow: the primary request, then the shared-index request only
when the primary answered 404. -/
def fetchRequests (post : String → Payload → Response) (nowMs : Int)
    (threshold : ℚ) : List (String × Payload) :=
  let payload := recordPayload nowMs threshold
  let first := post primaryIndex payload
  if first.status == 404 then [(primaryIndex, payload), (sharedIndex, payload)]
  else [(primaryIndex, payload)]

/-- The script's `fetch_bucket_data`: POST the bucket payload to the job
index, on 404 retry once against the shared index, and on a 200 with
non-empty hits return the projected sources; anything else yields `None`. -/
def fetch_bucket_data (post : String → Payload → Response) : Option (List Doc) :=
  let first := post primaryIndex bucketPayload
  let response :=
    if first.status == 404 then post sharedIndex bucketPayload else first
  if response.status == 200 then
    match response.body with
    | none => none
    | some data =>
      if data.hits.isEmpty then none else some (data.hits.map Hit.source)
  else none

lemma extractRecords_mem (data : SearchBody) (l : List Doc) (r : Doc)
    (hb : extractRecords (some data) = some l) (hr : r ∈ l) :
    (∃ h ∈ data.hits, h.source = r) ∧ 0 < scoreOf r := by
  unfold extractRecords at hb
  by_cases hemp : data.hits.isEmpty = true
  · simp [hemp] at hb
  · have hb' : (data.hits.map Hit.source).filter
        (fun r => decide ((0 : ℚ) < scoreOf r)) = l := by
      simpa [hemp] using hb
    subst hb'
    rcases List.mem_filter.mp hr with ⟨hmem, hsig⟩
    refine ⟨?_, of_decide_eq_true hsig⟩
    rcases List.mem_map.mp hmem with ⟨h, hh, hsrc⟩
    exact ⟨h, hh, hsrc⟩

lemma esSearch_mem (contents : List Doc) (p : Payload) (h : Hit)
    (hh : h ∈ esSearch contents p) : matchesFilter p h.source = true := by
  unfold esSearch at hh
  rcases List.mem_map.mp hh with ⟨d, hd, rfl⟩
  have hd' := List.take_subset _ _ hd
  rw [List.mem_insertionSort] at hd'
  exact (List.mem_filter.mp hd').2

lemma fetch_honest_eq (contents : String → List Doc) (nowMs : Int) (t : ℚ) :
    fetch_anomaly_data (honestPost contents) nowMs t
      = extractRecords (some ⟨esSearch (contents primaryIndex)
          (recordPayload nowMs t)⟩) := by
  simp [fetch_anomaly_data, honestPost]

lemma fetch_honest_mem (contents : String → List Doc) (nowMs : Int) (t : ℚ)
    (l : List Doc) (r : Doc)
    (hl : fetch_anomaly_data (honestPost contents) nowMs t = some l)
    (hr : r ∈ l) :
    matchesFilter (recordPayload nowMs t) r = true ∧ 0 < scoreOf r := by
  rw [fetch_honest_eq] at hl
  rcases extractRecords_mem _ _ _ hl hr with ⟨⟨h, hh, hsrc⟩, hsig⟩
  exact ⟨hsrc ▸ esSearch_mem _ _ h hh, hsig⟩

lemma matchesFilter_record (nowMs : Int) (t : ℚ) (r : Doc)
    (h : matchesFilter (recordPayload nowMs t) r = true) :
    (∃ s, r.record_score = some s ∧ t ≤ s)
    ∧ ∃ ts, r.timestamp = some ts
        ∧ nowMs - DAYS_BACK * MS_PER_DAY ≤ ts ∧ ts ≤ nowMs := by
  unfold matchesFilter recordPayload at h
  simp only [Bool.and_eq_true] at h
  obtain ⟨⟨⟨hjob, htyp⟩, hts⟩, hsc⟩ := h
  constructor
  · cases hscore : r.record_score with
    | none => rw [hscore] at hsc; exact absurd hsc (by simp)
    | some s =>
      rw [hscore] at hsc
      exact ⟨s, rfl, of_decide_eq_true hsc⟩
  · cases hstamp : r.timestamp with
    | none => rw [hstamp] at hts; exact absurd hts (by simp)
    | some ts =>
      rw [hstamp] at hts
      simp only [Bool.and_eq_true, decide_eq_true_eq] at hts
      exact ⟨ts, rfl, hts.1, hts.2⟩

/-- C2: every record returned by the threshold-filtered fetch satisfies the
threshold: if `fetch_anomaly_data` against an index honouring the query
semantics returns a record list, each record's score is at least the
threshold `t` placed in the payload's `record_score` range clause (the
script fixes `t = 0`). -/
theorem fetch_records_meet_threshold (contents : String → List Doc)
    (nowMs : Int) (t : ℚ) (l : List Doc) (r : Doc)
    (hl : fetch_anomaly_data (honestPost contents) nowMs t = some l)
    (hr : r ∈ l) : t ≤ scoreOf r := by
  rcases fetch_honest_mem contents nowMs t l r hl hr with ⟨hmatch, _⟩
  rcases (matchesFilter_record nowMs t r hmatch).1 with ⟨s, hs, hts⟩
  simpa [scoreOf, hs] using hts

/-- A record inside the lookback window with a positive score, used to
exercise the fetch pipeline on concrete data. -/
def inWindowDoc : Doc :=
  { job_id := JOB_ID, result_type := "record", timestamp := some 5,
    record_score := some 50, partition_field_value := some "test_a",
    actual := none, typical := none }

/-- Witness for C2: with the script's threshold 0 and a one-document index,
the fetch returns the document and its score meets the threshold. -/
theorem fetch_records_meet_threshold_witness :
    fetch_anomaly_data (honestPost (fun _ => [inWindowDoc])) 5 0
        = some [inWindowDoc]
    ∧ (0 : ℚ) ≤ scoreOf inWindowDoc :=
  ⟨by decide, fetch_records_meet_threshold (fun _ => [inWindowDoc]) 5 0
      [inWindowDoc] inWindowDoc (by decide) (by decide)⟩

/-- C3: every record returned by `fetch_anomaly_data` against an index
honouring the query semantics carries a timestamp inside the inclusive
millisecond-epoch window `[now - DAYS_BACK days, now]` computed at the start
of the fetch. -/
theorem fetch_records_in_window (contents : String → List Doc)
    (nowMs : Int) (t : ℚ) (l : List Doc) (r : Doc)
    (hl : fetch_anomaly_data (honestPost contents) nowMs t = some l)
    (hr : r ∈ l) :
    ∃ ts, r.timestamp = some ts
      ∧ nowMs - DAYS_BACK * MS_PER_DAY ≤ ts ∧ ts ≤ nowMs := by
  rcases fetch_honest_mem contents nowMs t l r hl hr with ⟨hmatch, _⟩
  exact (matchesFilter_record nowMs t r hmatch).2

/-- Witness for C3: the concrete fetched record's timestamp lies in the
window. -/
theorem fetch_records_in_window_witness :
    fetch_anomaly_data (honestPost (fun _ => [inWindowDoc])) 5 0
        = some [inWindowDoc]
    ∧ ∃ ts, inWindowDoc.timestamp = some ts
        ∧ 5 - DAYS_BACK * MS_PER_DAY ≤ ts ∧ ts ≤ 5 :=
  ⟨by decide, fetch_records_in_window (fun _ => [inWindowDoc]) 5 0
      [inWindowDoc] inWindowDoc (by decide) (by decide)⟩

/-- C9: the significance filter at the end of `fetch_anomaly_data` drops
every score-0 record: whatever the search endpoint answers, each record in a
returned list has `record_score` strictly greater than 0. -/
theorem fetch_excludes_zero_scores (post : String → Payload → Response)
    (nowMs : Int) (t : ℚ) (l : List Doc) (r : Doc)
    (hl : fetch_anomaly_data post nowMs t = some l) (hr : r ∈ l) :
    0 < scoreOf r := by
  unfold fetch_anomaly_data at hl
  set response := if (post primaryIndex (recordPayload nowMs t)).status == 404
    then post sharedIndex (recordPayload nowMs t)
    else post primaryIndex (recordPayload nowMs t) with hresp
  by_cases hstat : 400 ≤ response.status
  · rw [if_pos hstat] at hl; exact absurd hl (by simp)
  · rw [if_neg hstat] at hl
    cases hbody : response.body with
    | none => rw [hbody] at hl; exact absurd hl (by simp [extractRecords])
    | some data =>
      rw [hbody] at hl
      exact (extractRecords_mem data l r hl hr).2

/-- Witness for C9: the concrete fetched record has a strictly positive
score. -/
theorem fetch_excludes_zero_scores_witness :
    fetch_anomaly_data (honestPost (fun _ => [inWindowDoc])) 5 0
        = some [inWindowDoc]
    ∧ 0 < scoreOf inWindowDoc :=
  ⟨by decide, fetch_excludes_zero_scores (honestPost (fun _ => [inWindowDoc]))
      5 0 [inWindowDoc] inWindowDoc (by decide) (by decide)⟩

/-- C5: on a 404 from the job-specific index, `fetch_anomaly_data` retries
exactly once against `.ml-anomalies-shared` with the same payload; a 200
from the fallback makes the fallback's hits the final result (extracted by
the shared tail `extractRecords`), and no further requests are issued. -/
theorem fallback_on_404 (post : String → Payload → Response) (nowMs : Int)
    (t : ℚ)
    (hp : (post primaryIndex (recordPayload nowMs t)).status = 404)
    (hf : (post sharedIndex (recordPayload nowMs t)).status = 200) :
    fetch_anomaly_data post nowMs t
      = extractRecords (post sharedIndex (recordPayload nowMs t)).body
    ∧ fetchRequests post nowMs t
      = [(primaryIndex, recordPayload nowMs t),
         (sharedIndex, recordPayload nowMs t)]
    ∧ ∀ data, (post sharedIndex (recordPayload nowMs t)).body = some data →
        data.hits ≠ [] →
        fetch_anomaly_data post nowMs t
          = some ((data.hits.map Hit.source).filter
              (fun r => decide ((0 : ℚ) < scoreOf r))) := by
  have h1 : fetch_anomaly_data post nowMs t
      = extractRecords (post sharedIndex (recordPayload nowMs t)).body := by
    unfold fetch_anomaly_data
    simp [hp, hf]
  refine ⟨h1, by unfold fetchRequests; simp [hp], ?_⟩
  intro data hdata hne
  rw [h1, hdata]
  unfold extractRecords
  cases hcase : data.hits with
  | nil => exact absurd hcase hne
  | cons a as => simp [hcase]

/-- A search endpoint answering 404 on the job-specific index and 200 with
one in-window hit on the shared index. -/
def notFoundThenSharedPost : String → Payload → Response := fun idx _ =>
  if idx == primaryIndex then { status := 404, body := none }
  else { status := 200, body := some ⟨[⟨inWindowDoc⟩]⟩ }

/-- Witness for C5: a concrete 404-then-200 exchange resolves to the
fallback's extracted records. -/
theorem fallback_on_404_witness :
    (notFoundThenSharedPost primaryIndex (recordPayload 5 0)).status = 404
    ∧ (notFoundThenSharedPost sharedIndex (recordPayload 5 0)).status = 200
    ∧ fetch_anomaly_data notFoundThenSharedPost 5 0
        = extractRecords
            (notFoundThenSharedPost sharedIndex (recordPayload 5 0)).body :=
  ⟨by decide, by decide,
    (fallback_on_404 notFoundThenSharedPost 5 0 (by decide) (by decide)).1⟩

/-- Report file path `REPORT_FILE` from the script. -/
def REPORT_FILE : String := "reports/anomaly_report.pdf"

/-- Chart image path `IMAGE_FILE` from the script. -/
def IMAGE_FILE : String := "reports/anomaly_chart.png"

/-- Terminal outcome of a run of `main`. -/
inductive RunOutcome where
  | connectionFailed
  | jobMissing
  | noData
  | report (records : List Doc)
  deriving Repr, DecidableEq

/-- Python truthiness of the `records` variable in `main`: `not records`
holds for `None` and for an empty list alike. -/
def falsy (records : Option (List Doc)) : Bool :=
  match records with
  | none => true
  | some l => l.isEmpty

/-- The script's `main` after the connection and ML-job pre-flight checks:
fetch records, fall back to `fetch_bucket_data` when the result is falsy,
terminate with `noData` when still falsy, else generate the report. -/
def mainRun (connOk jobOk : Bool) (post : String → Payload → Response)
    (nowMs : Int) : RunOutcome :=
  if !connOk then RunOutcome.connectionFailed
  else if !jobOk then RunOutcome.jobMissing
  else
    let records := fetch_anomaly_data post nowMs 0
    let records := if falsy records then fetch_bucket_data post else records
    if falsy records then RunOutcome.noData
    else RunOutcome.report (records.getD [])

/-- Files the run writes: the PDF always on the report path, the chart image
only when `generate_visualization` found at least one timestamp. -/
def artifactsOf : RunOutcome → List String
  | RunOutcome.report records =>
    if (records.filterMap Doc.timestamp).isEmpty then [REPORT_FILE]
    else [IMAGE_FILE, REPORT_FILE]
  | _ => []

/-- Message printed at the terminal state of each outcome. -/
def terminalMessage : RunOutcome → String
  | RunOutcome.connectionFailed =>
    "Cannot connect to Elasticsearch. Make sure Docker is running."
  | RunOutcome.jobMissing => "ML job not found or not running."
  | RunOutcome.noData => "No data available for report generation."
  | RunOutcome.report _ => "REPORT GENERATION COMPLETED"

/-- C6: when the record fetch yields no records, `main` consults the bucket
fallback; when that too is empty (or `None`), the run ends in the `noData`
state: it prints the no-data message, writes neither the chart nor the PDF,
and is distinct from the error terminal states. -/
theorem no_data_terminates_cleanly (post : String → Payload → Response)
    (nowMs : Int)
    (hr : falsy (fetch_anomaly_data post nowMs 0) = true)
    (hb : falsy (fetch_bucket_data post) = true) :
    mainRun true true post nowMs = RunOutcome.noData
    ∧ artifactsOf (mainRun true true post nowMs) = []
    ∧ terminalMessage (mainRun true true post nowMs)
        = "No data available for report generation."
    ∧ mainRun true true post nowMs ≠ RunOutcome.connectionFailed
    ∧ mainRun true true post nowMs ≠ RunOutcome.jobMissing := by
  have h : mainRun true true post nowMs = RunOutcome.noData := by
    unfold mainRun
    simp [hr, hb]
  exact ⟨h, by rw [h]; rfl, by rw [h]; rfl, by rw [h]; simp, by rw [h]; simp⟩

/-- A search endpoint answering 200 with an empty hit list everywhere. -/
def emptyHitsPost : String → Payload → Response :=
  fun _ _ => { status := 200, body := some ⟨[]⟩ }

/-- Witness for C6: with both fetches empty, the concrete run terminates in
the `noData` state. -/
theorem no_data_terminates_cleanly_witness :
    falsy (fetch_anomaly_data emptyHitsPost 0 0) = true
    ∧ falsy (fetch_bucket_data emptyHitsPost) = true
    ∧ mainRun true true emptyHitsPost 0 = RunOutcome.noData :=
  ⟨by decide, by decide,
    (no_data_terminates_cleanly emptyHitsPost 0 (by decide) (by decide)).1⟩

/-- A record document whose source lacks a timestamp but carries a positive
score. -/
def noTimestampDoc : Doc :=
  { job_id := JOB_ID, result_type := "record", timestamp := none,
    record_score := some 50, partition_field_value := none,
    actual := none, typical := none }

/-- A search endpoint answering 200 with one timestamp-less hit everywhere,
exercising the projection on a hit list the query filter never produced. -/
def rawHitsPost : String → Payload → Response :=
  fun _ _ => { status := 200, body := some ⟨[⟨noTimestampDoc⟩]⟩ }

/-- Counterexample to C7 as stated: the projection in `fetch_anomaly_data`
performs no timestamp check, so a hit list containing a timestamp-less
document with positive score passes through into the returned record
list. -/
theorem projection_keeps_timestampless_record :
    fetch_anomaly_data rawHitsPost 0 0 = some [noTimestampDoc]
    ∧ noTimestampDoc.timestamp = none := by
  decide

/-- C7 as amended: the projection itself rejects nothing on timestamps, but
whenever every hit satisfies the record query's filter (as hits returned by
the search do), every record in the projected list carries a timestamp. -/
theorem query_matching_hits_have_timestamps (hits : List Hit) (nowMs : Int)
    (t : ℚ)
    (hq : ∀ h ∈ hits, matchesFilter (recordPayload nowMs t) h.source = true)
    (l : List Doc) (hl : extractRecords (some ⟨hits⟩) = some l)
    (r : Doc) (hr : r ∈ l) : r.timestamp.isSome = true := by
  rcases extractRecords_mem ⟨hits⟩ l r hl hr with ⟨⟨h, hh, hsrc⟩, _⟩
  rcases (matchesFilter_record nowMs t h.source (hq h hh)).2 with ⟨ts, hts, _⟩
  rw [← hsrc, hts]
  rfl

/-- Witness for the amended C7: a concrete query-matching hit list yields
only records with timestamps. -/
theorem query_matching_hits_have_timestamps_witness :
    (∀ h ∈ [(⟨inWindowDoc⟩ : Hit)],
        matchesFilter (recordPayload 5 0) h.source = true)
    ∧ extractRecords (some ⟨[⟨inWindowDoc⟩]⟩) = some [inWindowDoc]
    ∧ inWindowDoc.timestamp.isSome = true :=
  ⟨by decide, by decide,
    query_matching_hits_have_timestamps [⟨inWindowDoc⟩] 5 0 (by decide)
      [inWindowDoc] (by decide) inWindowDoc (by decide)⟩

/-- Test name `generate_visualization` records for a document:
`record['partition_field_value']` when the key is present, else
`"Unknown"`. -/
def vizTestName (r : Doc) : String :=
  match r.partition_field_value with
  | some v => v
  | none => "Unknown"

/-- Score `generate_visualization` records for a document:
`record.get('record_score', 0)`. -/
def vizScore (r : Doc) : ℚ := r.record_score.getD 0

/-- The parallel series the visualization loop accumulates (timestamps are
appended only when present). -/
structure VizData where
  timestamps : List Int
  scores : List ℚ
  test_names : List String
  deriving Repr, DecidableEq

/-- Data-preparation loop of `generate_visualization` over the fetched
records, restricted to the three series the report draws from. -/
def generate_visualization_data (records : List Doc) : VizData :=
  { timestamps := records.filterMap Doc.timestamp,
    scores := records.map vizScore,
    test_names := records.map vizTestName }

/-- The `top_anomalies` selection in `create_pdf_report`:
`sorted(records, key=lambda x: x.get('record_score', 0), reverse=True)[:5]`. -/
def top_anomalies (records : List Doc) : List Doc :=
  (List.insertionSort (fun a b => scoreOf b ≤ scoreOf a) records).take 5

/-- One line of the PDF's top-5 table: name, score and timestamp read with
the defaults `'Unknown'` and `0`. -/
def pdfRow (a : Doc) : String × ℚ × Int :=
  (a.partition_field_value.getD "Unknown", a.record_score.getD 0,
    a.timestamp.getD 0)

/-- The top-5 table of `create_pdf_report`. -/
def pdfTopRows (records : List Doc) : List (String × ℚ × Int) :=
  (top_anomalies records).map pdfRow

/-- C8: a record missing `partition_field_value` is read as `"Unknown"` and
one missing `record_score` is read as `0`, both in the visualization's data
preparation and in the PDF's top-5 table row. -/
theorem missing_fields_default (r : Doc)
    (h1 : r.partition_field_value = none) (h2 : r.record_score = none) :
    vizTestName r = "Unknown" ∧ vizScore r = 0
    ∧ (pdfRow r).1 = "Unknown" ∧ (pdfRow r).2.1 = 0 := by
  simp [vizTestName, vizScore, pdfRow, h1, h2]

/-- A record document with every optional field absent. -/
def bareDoc : Doc :=
  { job_id := JOB_ID, result_type := "record", timestamp := none,
    record_score := none, partition_field_value := none,
    actual := none, typical := none }

/-- Witness for C8: the all-absent record defaults to `"Unknown"` and 0. -/
theorem missing_fields_default_witness :
    bareDoc.partition_field_value = none ∧ bareDoc.record_score = none
    ∧ (vizTestName bareDoc = "Unknown" ∧ vizScore bareDoc = 0
        ∧ (pdfRow bareDoc).1 = "Unknown" ∧ (pdfRow bareDoc).2.1 = 0) :=
  ⟨rfl, rfl, missing_fields_default bareDoc rfl rfl⟩

/-- A bucket document dated at epoch 0, far before any recent lookback
window. -/
def oldBucketDoc : Doc :=
  { job_id := JOB_ID, result_type := "bucket", timestamp := some 0,
    record_score := none, partition_field_value := none,
    actual := none, typical := none }

/-- C10: the bucket payload carries no timestamp-range and no score filter,
so the bucket fallback can return a document whose timestamp lies outside
the lookback window the record query would have imposed (here with
`now = 1700000000000` ms). -/
theorem bucket_query_ignores_window :
    bucketPayload.tsRange = none
    ∧ bucketPayload.scoreGte = none
    ∧ fetch_bucket_data (honestPost (fun _ => [oldBucketDoc]))
        = some [oldBucketDoc]
    ∧ oldBucketDoc.timestamp = some 0
    ∧ ¬((1700000000000 : Int) - DAYS_BACK * MS_PER_DAY ≤ 0
        ∧ (0 : Int) ≤ 1700000000000) := by
  refine ⟨rfl, rfl, by decide, rfl, by decide⟩
